import Mathlib

/-!
Verification development for the `ipyparaview` example notebooks
(`Iso-Surfaces_with_RTX.ipynb` and the minimal ParaView test notebook).

The notebooks define a handful of pure utility functions (`hexToRGB`,
`sphereToCart`) and callbacks (`iso`, `setDirLight`, `setPtLight`) that
mutate ParaView proxy objects.  We embed those functions shallowly:

* strings are Lean `String`s, slicing and `str.strip` follow Python;
* Python `float` arithmetic on the values appearing here is modelled by
  exact rational (`ℚ`) arithmetic, and the transcendental functions of
  `sphereToCart` by the real (`ℝ`) functions `Real.sin` / `Real.cos`;
* the mutable ParaView configuration the notebook touches is a record
  `PVState`; callbacks are state transformers, and pipeline-update
  triggers (`UpdatePipeline`) are recorded in an explicit call trace;
* a Python `ValueError` is an `Option`/`Except` error value.
-/

/-- Value of a single hexadecimal digit, as accepted by Python's
`int(s, 16)`: `0`-`9`, `a`-`f`, `A`-`F`. -/
def hexDigitVal (c : Char) : Option Nat :=
  if '0' ≤ c ∧ c ≤ '9' then some (c.toNat - 48)
  else if 'a' ≤ c ∧ c ≤ 'f' then some (c.toNat - 87)
  else if 'A' ≤ c ∧ c ≤ 'F' then some (c.toNat - 55)
  else none

/-- Accumulating base-16 parse of a list of characters. -/
def parseHexAux (acc : Nat) : List Char → Option Nat
  | [] => some acc
  | c :: cs =>
    match hexDigitVal c with
    | none => none
    | some d => parseHexAux (16 * acc + d) cs

/-- Model of Python's `int(s, 16)` on the strings this notebook feeds it:
plain strings of hexadecimal digits.  The empty string is a `ValueError`
(`none`), exactly as in Python; sign characters, whitespace, underscores
and the `0x` prefix — which never occur in the notebook's colour strings —
are rejected rather than interpreted. -/
def pyIntHex (s : List Char) : Option Nat :=
  match s with
  | [] => none
  | _ => parseHexAux 0 s

/-- Model of Python's `h.strip('#')`: remove every leading and trailing
`'#'` character. -/
def stripHash (l : List Char) : List Char :=
  ((l.dropWhile (fun c => c = '#')).reverse.dropWhile (fun c => c = '#')).reverse

/-- Model of the Python slice `l[i:i+2]` (clamping, never failing). -/
def slice2 (l : List Char) (i : Nat) : List Char :=
  (l.drop i).take 2

/-- The integer stage of `hexToRGB`: the three `int(h.strip('#')[i:i+2], 16)`
parses for `i in (0, 2, 4)`, before the division by 255.  `none` is the
propagated `ValueError`. -/
def hexToRGBraw (h : String) : Option (Nat × Nat × Nat) :=
  let b := stripHash h.data
  match pyIntHex (slice2 b 0), pyIntHex (slice2 b 2), pyIntHex (slice2 b 4) with
  | some r, some g, some bl => some (r, g, bl)
  | _, _, _ => none

/-- Shallow embedding of the notebook's

`def hexToRGB(h): return list(float(int(h.strip('#')[i:i+2], 16))/255.0 for i in (0, 2, 4))`

The three two-character slices of the `'#'`-stripped input are parsed in
base 16 and each divided by 255; a slice that Python's `int` rejects
(in particular an empty slice) makes the whole call raise `ValueError`,
modelled as `none`.  The float divisions are modelled exactly over `ℚ`. -/
def hexToRGB (h : String) : Option (List ℚ) :=
  (hexToRGBraw h).map (fun v => [(v.1 : ℚ) / 255, (v.2.1 : ℚ) / 255, (v.2.2 : ℚ) / 255])

example : hexToRGBraw "#ff5700" = some (255, 87, 0) := by decide
example : hexToRGB "#ff5700" = some [1, 87/255, 0] := by
  have h : hexToRGBraw "#ff5700" = some (255, 87, 0) := by decide
  rw [hexToRGB, h]
  norm_num
example : hexToRGB "#ab" = none := by
  have h : hexToRGBraw "#ab" = none := by decide
  rw [hexToRGB, h]
  rfl
example : hexToRGBraw "109ad2" = hexToRGBraw "#109ad2" := by decide

/-- Shallow embedding of the notebook's

```
def sphereToCart(t, p):
    from math import sin, cos, pi
    t,p = pi*t/180.0, pi*p/180.0
    return [sin(p)*cos(t), sin(t), cos(p)*cos(t)]
```

The float trigonometry is modelled by the exact real functions. -/
noncomputable def sphereToCart (t p : ℝ) : List ℝ :=
  let t2 := Real.pi * t / 180.0
  let p2 := Real.pi * p / 180.0
  [Real.sin p2 * Real.cos t2, Real.sin t2, Real.cos p2 * Real.cos t2]

/-! ## The ParaView configuration state touched by the notebook

The notebooks only assign properties of proxy objects owned by ParaView.
We model exactly the objects and properties the notebook code reads or
writes; `UpdatePipeline()` calls are not configuration, so they are
recorded in a trace of emitted pipeline commands instead. -/

/-- The `Contour` filter proxy: the two properties the notebook assigns. -/
structure ContourFilter where
  ContourBy : List String
  Isosurfaces : List ℚ
  deriving Repr, DecidableEq

/-- The `Transform` filter proxy. -/
structure TransformFilter where
  Translate : List ℚ
  Rotate : List ℚ
  deriving Repr, DecidableEq

/-- The `RenderView` proxy: the properties the notebook assigns. -/
structure RenderView where
  ViewSize : List Nat
  CameraPosition : List ℚ
  Background : List ℚ
  BackEnd : String
  EnableRayTracing : Nat
  Denoise : Nat
  SamplesPerPixel : Nat
  UseLight : Bool
  deriving Repr, DecidableEq

/-- A light proxy.  `lightType` models the Python attribute `Type`
(`Type` is reserved in Lean).  `Position` is real-valued because
directional lights receive `sphereToCart` output. -/
structure Light where
  Position : List ℝ
  DiffuseColor : List ℚ
  Intensity : ℚ
  lightType : String
  Enable : Nat
  ConeAngle : ℚ

/-- Identifiers for the three lights added by the notebook
(`light1,light2,light3 = AddLight(...),AddLight(...),AddLight(...)`). -/
inductive LightId where
  | light1 | light2 | light3
  deriving Repr, DecidableEq

/-- The identifiers of the pipeline objects in the first notebook. -/
inductive ObjId where
  | trivprod | contour | transform | plane
  deriving Repr, DecidableEq

/-- A pipeline command emitted by notebook code: `obj.UpdatePipeline()`. -/
inductive PVCall where
  | updatePipeline (o : ObjId)
  deriving Repr, DecidableEq

/-- The mutable ParaView configuration the first notebook manipulates. -/
structure PVState where
  contour : ContourFilter
  transform : TransformFilter
  renV : RenderView
  lights : LightId → Light

/-- Apply an update to one light of the state, leaving the rest alone
(Python mutates the light proxy in place through the reference passed to
the callback). -/
def assignLight (li : LightId) (f : Light → Light) (s : PVState) : PVState :=
  { s with lights := fun lj => if lj = li then f (s.lights lj) else s.lights lj }

/-- Shallow embedding of the notebook's

```
def iso(isoval):
    contour.Isosurfaces = [isoval]
    contour.UpdatePipeline()
```

The result pairs the post-state with the trace of pipeline commands the
call emits (the Python function itself returns `None`). -/
def iso (isoval : ℚ) (s : PVState) : PVState × List PVCall :=
  ({ s with contour := { s.contour with Isosurfaces := [isoval] } },
   [PVCall.updatePipeline ObjId.contour])

/-- Shallow embedding of the notebook's

```
def setDirLight(light, theta, phi, col, lum):
    light.Position = sphereToCart(theta,phi)
    light.DiffuseColor = hexToRGB(col)
    light.Intensity = lum
```

`hexToRGB(col)` can raise `ValueError`; in that case the exception
propagates after the `Position` assignment has already happened, so the
error value carries the partially updated state. -/
noncomputable def setDirLight (li : LightId) (theta phi : ℝ) (col : String) (lum : ℚ)
    (s : PVState) : Except PVState PVState :=
  let s1 := assignLight li (fun l => { l with Position := sphereToCart theta phi }) s
  match hexToRGB col with
  | none => Except.error s1
  | some rgb =>
    let s2 := assignLight li (fun l => { l with DiffuseColor := rgb }) s1
    Except.ok (assignLight li (fun l => { l with Intensity := lum }) s2)

/-- Shallow embedding of the notebook's

```
def setPtLight(light, x, y, z, col, lum):
    light.Position = [x,y,z]
    light.DiffuseColor = hexToRGB(col)
    light.Intensity = lum
```

with the same exception convention as `setDirLight`. -/
def setPtLight (li : LightId) (x y z : ℝ) (col : String) (lum : ℚ)
    (s : PVState) : Except PVState PVState :=
  let s1 := assignLight li (fun l => { l with Position := [x, y, z] }) s
  match hexToRGB col with
  | none => Except.error s1
  | some rgb =>
    let s2 := assignLight li (fun l => { l with DiffuseColor := rgb }) s1
    Except.ok (assignLight li (fun l => { l with Intensity := lum }) s2)

/-- The point-data array name chosen in the first notebook. -/
def dataName : String := "CTHead"

/-- The contour filter configuration from the first notebook's setup cell:

```
contour.ContourBy = ['POINTS', dataName]
contour.Isosurfaces = [1627]
```
-/
def initialContour : ContourFilter :=
  { ContourBy := ["POINTS", dataName], Isosurfaces := [1627] }

/-- The wavelet contour configuration from the second (test) notebook:

```
contour.ContourBy = ['POINTS', 'RTData']
contour.Isosurfaces = [157]
```
-/
def waveletContour : ContourFilter :=
  { ContourBy := ["POINTS", "RTData"], Isosurfaces := [157] }

/-- `voldims = [256,256,113]`, the grid dimensions of the CT volume. -/
def voldims : List ℤ := [256, 256, 113]

/-- The `vtkImageData` properties the first notebook assigns. -/
structure VtkImageData where
  Dimensions : List ℤ
  Extent : List ℤ
  Spacing : List ℚ
  Origin : List ℚ
  deriving Repr

/-- The `vtkImageData` configuration of the first notebook:

```
vtkimg.SetDimensions(voldims)
vtkimg.SetExtent([0,voldims[0]-1, 0,voldims[1]-1, 0,voldims[2]-1])
vtkimg.SetSpacing([1.0/voldims[0],1.0/voldims[1],1.0/voldims[2]])
vtkimg.SetOrigin([-0.5,-0.5,-0.5])
```
-/
def vtkimg : VtkImageData :=
  { Dimensions := voldims
    Extent := [0, voldims[0]! - 1, 0, voldims[1]! - 1, 0, voldims[2]! - 1]
    Spacing := [1 / (voldims[0]! : ℚ), 1 / (voldims[1]! : ℚ), 1 / (voldims[2]! : ℚ)]
    Origin := [-(1/2), -(1/2), -(1/2)] }

/-- A concrete light value used to instantiate theorems at specific states.
The property defaults that ParaView's `AddLight` gives a fresh light live
in ParaView, not in this repository, and no claim depends on them. -/
noncomputable def baseLight : Light :=
  { Position := [0, 0, 0], DiffuseColor := [1, 1, 1], Intensity := 1,
    lightType := "Directional", Enable := 0, ConeAngle := 30 }

/-- A concrete `PVState` used to instantiate theorems: the configuration
values assigned by the first notebook's setup cells, with `baseLight`
standing in for the externally-created lights. -/
noncomputable def baseState : PVState :=
  { contour := initialContour
    transform := { Translate := [1/10, 0, 0], Rotate := [-90, -180, -180] }
    renV := { ViewSize := [800, 500], CameraPosition := [0, 0, 5/2],
              Background := [0, 0, 0], BackEnd := "OptiX pathtracer",
              EnableRayTracing := 1, Denoise := 1, SamplesPerPixel := 4,
              UseLight := false }
    lights := fun _ => baseLight }

/-! ## Helper lemmas about the hex parsing chain -/

theorem hexDigitVal_le_15 (c : Char) (v : Nat) (h : hexDigitVal c = some v) :
    v ≤ 15 := by
  unfold hexDigitVal at h
  split_ifs at h with h1 h2 h3
  · have a1 : 48 ≤ c.toNat := h1.1
    have a2 : c.toNat ≤ 57 := h1.2
    injection h with h
    omega
  · have a1 : 97 ≤ c.toNat := h2.1
    have a2 : c.toNat ≤ 102 := h2.2
    injection h with h
    omega
  · have a1 : 65 ≤ c.toNat := h3.1
    have a2 : c.toNat ≤ 70 := h3.2
    injection h with h
    omega

theorem hexDigitVal_ne_hash (c : Char) (v : Nat) (h : hexDigitVal c = some v) :
    c ≠ '#' := by
  intro hc
  rw [hc] at h
  exact Option.noConfusion ((by decide : hexDigitVal '#' = none) ▸ h)

theorem pyIntHex_pair (c0 c1 : Char) (v0 v1 : Nat) (h0 : hexDigitVal c0 = some v0)
    (h1 : hexDigitVal c1 = some v1) : pyIntHex [c0, c1] = some (16 * v0 + v1) := by
  simp [pyIntHex, parseHexAux, h0, h1]

theorem stripHash_cons_hash (l : List Char) : stripHash ('#' :: l) = stripHash l := by
  simp [stripHash, List.dropWhile]

theorem stripHash_six (d0 d1 d2 d3 d4 d5 : Char) (h0 : d0 ≠ '#') (h5 : d5 ≠ '#') :
    stripHash [d0, d1, d2, d3, d4, d5] = [d0, d1, d2, d3, d4, d5] := by
  simp [stripHash, List.dropWhile, h0, h5]

theorem stripHash_six_append (d0 d1 d2 d3 d4 d5 : Char) (h0 : d0 ≠ '#')
    (h5 : d5 ≠ '#') :
    stripHash ([d0, d1, d2, d3, d4, d5] ++ ['#']) = [d0, d1, d2, d3, d4, d5] := by
  simp [stripHash, List.dropWhile, h0, h5]

theorem hexToRGBraw_of_body (h : String) (d0 d1 d2 d3 d4 d5 : Char)
    (v0 v1 v2 v3 v4 v5 : Nat)
    (hb : stripHash h.data = [d0, d1, d2, d3, d4, d5])
    (h0 : hexDigitVal d0 = some v0) (h1 : hexDigitVal d1 = some v1)
    (h2 : hexDigitVal d2 = some v2) (h3 : hexDigitVal d3 = some v3)
    (h4 : hexDigitVal d4 = some v4) (h5 : hexDigitVal d5 = some v5) :
    hexToRGBraw h = some (16 * v0 + v1, 16 * v2 + v3, 16 * v4 + v5) := by
  unfold hexToRGBraw
  rw [hb]
  dsimp only
  have s0 : slice2 [d0, d1, d2, d3, d4, d5] 0 = [d0, d1] := by simp [slice2]
  have s2 : slice2 [d0, d1, d2, d3, d4, d5] 2 = [d2, d3] := by simp [slice2]
  have s4 : slice2 [d0, d1, d2, d3, d4, d5] 4 = [d4, d5] := by simp [slice2]
  rw [s0, s2, s4, pyIntHex_pair d0 d1 v0 v1 h0 h1, pyIntHex_pair d2 d3 v2 v3 h2 h3,
    pyIntHex_pair d4 d5 v4 v5 h4 h5]

theorem div255_mem_unit (v : Nat) (hv : v ≤ 255) :
    (0 : ℚ) ≤ (v : ℚ) / 255 ∧ (v : ℚ) / 255 ≤ 1 := by
  constructor
  · positivity
  · rw [div_le_one (by norm_num)]
    exact_mod_cast hv

/-! ## Claim theorems -/

/-- C1: for input `'#'` followed by six hex digits `d0..d5`, `hexToRGB`
returns exactly the triple whose components are the integer values of the
digit pairs divided by 255, each lying in `[0, 1]`. -/
theorem hexToRGB_hash_hex6 (d0 d1 d2 d3 d4 d5 : Char) (v0 v1 v2 v3 v4 v5 : Nat)
    (h0 : hexDigitVal d0 = some v0) (h1 : hexDigitVal d1 = some v1)
    (h2 : hexDigitVal d2 = some v2) (h3 : hexDigitVal d3 = some v3)
    (h4 : hexDigitVal d4 = some v4) (h5 : hexDigitVal d5 = some v5) :
    hexToRGB (String.mk ['#', d0, d1, d2, d3, d4, d5]) =
      some [((16 * v0 + v1 : Nat) : ℚ) / 255, ((16 * v2 + v3 : Nat) : ℚ) / 255,
        ((16 * v4 + v5 : Nat) : ℚ) / 255] ∧
    ((0 : ℚ) ≤ ((16 * v0 + v1 : Nat) : ℚ) / 255 ∧ ((16 * v0 + v1 : Nat) : ℚ) / 255 ≤ 1) ∧
    ((0 : ℚ) ≤ ((16 * v2 + v3 : Nat) : ℚ) / 255 ∧ ((16 * v2 + v3 : Nat) : ℚ) / 255 ≤ 1) ∧
    ((0 : ℚ) ≤ ((16 * v4 + v5 : Nat) : ℚ) / 255 ∧ ((16 * v4 + v5 : Nat) : ℚ) / 255 ≤ 1) := by
  have hb : stripHash (String.mk ['#', d0, d1, d2, d3, d4, d5]).data =
      [d0, d1, d2, d3, d4, d5] := by
    show stripHash ('#' :: [d0, d1, d2, d3, d4, d5]) = _
    rw [stripHash_cons_hash]
    exact stripHash_six d0 d1 d2 d3 d4 d5
      (hexDigitVal_ne_hash d0 v0 h0) (hexDigitVal_ne_hash d5 v5 h5)
  have hraw := hexToRGBraw_of_body _ d0 d1 d2 d3 d4 d5 v0 v1 v2 v3 v4 v5 hb
    h0 h1 h2 h3 h4 h5
  refine ⟨by rw [hexToRGB, hraw]; rfl, ?_, ?_, ?_⟩
  · exact div255_mem_unit _ (by
      have := hexDigitVal_le_15 d0 v0 h0
      have := hexDigitVal_le_15 d1 v1 h1
      omega)
  · exact div255_mem_unit _ (by
      have := hexDigitVal_le_15 d2 v2 h2
      have := hexDigitVal_le_15 d3 v3 h3
      omega)
  · exact div255_mem_unit _ (by
      have := hexDigitVal_le_15 d4 v4 h4
      have := hexDigitVal_le_15 d5 v5 h5
      omega)

/-- Witness for C1 at the notebook's colour `#ff5700`. -/
theorem hexToRGB_hash_hex6_witness :
    hexDigitVal 'f' = some 15 ∧ hexDigitVal '5' = some 5 ∧
    hexDigitVal '7' = some 7 ∧ hexDigitVal '0' = some 0 ∧
    (hexToRGB (String.mk ['#', 'f', 'f', '5', '7', '0', '0']) =
      some [((16 * 15 + 15 : Nat) : ℚ) / 255, ((16 * 5 + 7 : Nat) : ℚ) / 255,
        ((16 * 0 + 0 : Nat) : ℚ) / 255] ∧
    ((0 : ℚ) ≤ ((16 * 15 + 15 : Nat) : ℚ) / 255 ∧ ((16 * 15 + 15 : Nat) : ℚ) / 255 ≤ 1) ∧
    ((0 : ℚ) ≤ ((16 * 5 + 7 : Nat) : ℚ) / 255 ∧ ((16 * 5 + 7 : Nat) : ℚ) / 255 ≤ 1) ∧
    ((0 : ℚ) ≤ ((16 * 0 + 0 : Nat) : ℚ) / 255 ∧ ((16 * 0 + 0 : Nat) : ℚ) / 255 ≤ 1)) :=
  ⟨by decide, by decide, by decide, by decide,
    hexToRGB_hash_hex6 'f' 'f' '5' '7' '0' '0' 15 15 5 7 0 0
      (by decide) (by decide) (by decide) (by decide) (by decide) (by decide)⟩

/-- C8: for a six-hex-digit body, `hexToRGB` ignores a leading or trailing
`'#'`: `hexToRGB('#' + s) = hexToRGB(s) = hexToRGB(s + '#')`. -/
theorem hexToRGB_strip_insensitive (d0 d1 d2 d3 d4 d5 : Char)
    (v0 v1 v2 v3 v4 v5 : Nat)
    (h0 : hexDigitVal d0 = some v0) (h1 : hexDigitVal d1 = some v1)
    (h2 : hexDigitVal d2 = some v2) (h3 : hexDigitVal d3 = some v3)
    (h4 : hexDigitVal d4 = some v4) (h5 : hexDigitVal d5 = some v5) :
    hexToRGB (String.mk ('#' :: [d0, d1, d2, d3, d4, d5])) =
      hexToRGB (String.mk [d0, d1, d2, d3, d4, d5]) ∧
    hexToRGB (String.mk ([d0, d1, d2, d3, d4, d5] ++ ['#'])) =
      hexToRGB (String.mk [d0, d1, d2, d3, d4, d5]) := by
  have hne0 := hexDigitVal_ne_hash d0 v0 h0
  have hne5 := hexDigitVal_ne_hash d5 v5 h5
  have hb : stripHash (String.mk [d0, d1, d2, d3, d4, d5]).data =
      [d0, d1, d2, d3, d4, d5] := stripHash_six d0 d1 d2 d3 d4 d5 hne0 hne5
  have hraw2 := hexToRGBraw_of_body (String.mk [d0, d1, d2, d3, d4, d5])
    d0 d1 d2 d3 d4 d5 v0 v1 v2 v3 v4 v5 hb h0 h1 h2 h3 h4 h5
  have hraw1 := hexToRGBraw_of_body (String.mk ('#' :: [d0, d1, d2, d3, d4, d5]))
    d0 d1 d2 d3 d4 d5 v0 v1 v2 v3 v4 v5
    (by show stripHash ('#' :: [d0, d1, d2, d3, d4, d5]) = _
        rw [stripHash_cons_hash]; exact hb) h0 h1 h2 h3 h4 h5
  have hraw3 := hexToRGBraw_of_body (String.mk ([d0, d1, d2, d3, d4, d5] ++ ['#']))
    d0 d1 d2 d3 d4 d5 v0 v1 v2 v3 v4 v5
    (stripHash_six_append d0 d1 d2 d3 d4 d5 hne0 hne5) h0 h1 h2 h3 h4 h5
  constructor
  · rw [hexToRGB, hexToRGB, hraw1, hraw2]
  · rw [hexToRGB, hexToRGB, hraw3, hraw2]

/-- Witness for C8 at the notebook's colour body `109ad2`. -/
theorem hexToRGB_strip_insensitive_witness :
    hexDigitVal '1' = some 1 ∧ hexDigitVal 'd' = some 13 ∧
    (hexToRGB (String.mk ('#' :: ['1', '0', '9', 'a', 'd', '2'])) =
      hexToRGB (String.mk ['1', '0', '9', 'a', 'd', '2']) ∧
    hexToRGB (String.mk (['1', '0', '9', 'a', 'd', '2'] ++ ['#'])) =
      hexToRGB (String.mk ['1', '0', '9', 'a', 'd', '2'])) :=
  ⟨by decide, by decide,
    hexToRGB_strip_insensitive '1' '0' '9' 'a' 'd' '2' 1 0 9 10 13 2
      (by decide) (by decide) (by decide) (by decide) (by decide) (by decide)⟩

/-- C9: when the `'#'`-stripped input has fewer than five characters, the
third two-character slice is empty and `hexToRGB` raises `ValueError`
(returns `none`) instead of producing a triple. -/
theorem hexToRGB_short_error (h : String)
    (hlen : (stripHash h.data).length ≤ 4) :
    hexToRGB h = none ∧ slice2 (stripHash h.data) 4 = [] := by
  have hsl : slice2 (stripHash h.data) 4 = [] := by
    unfold slice2
    rw [List.drop_eq_nil_of_le hlen]
    rfl
  refine ⟨?_, hsl⟩
  have hraw : hexToRGBraw h = none := by
    unfold hexToRGBraw
    dsimp only
    rw [hsl]
    cases pyIntHex (slice2 (stripHash h.data) 0) <;>
      cases pyIntHex (slice2 (stripHash h.data) 2) <;> rfl
  rw [hexToRGB, hraw]
  rfl

/-- Witness for C9 at the two-hex-digit input `"#ab"`. -/
theorem hexToRGB_short_error_witness :
    (stripHash "#ab".data).length ≤ 4 ∧
    (hexToRGB "#ab" = none ∧ slice2 (stripHash "#ab".data) 4 = []) :=
  ⟨by decide, hexToRGB_short_error "#ab" (by decide)⟩

/-- C2: `sphereToCart (t, p)` (angles in degrees) is the list
`[sin(p_r)cos(t_r), sin(t_r), cos(p_r)cos(t_r)]` with
`t_r = pi t / 180` and `p_r = pi p / 180`. -/
theorem sphereToCart_formula (t p : ℝ) :
    sphereToCart t p =
      [Real.sin (Real.pi * p / 180) * Real.cos (Real.pi * t / 180),
        Real.sin (Real.pi * t / 180),
        Real.cos (Real.pi * p / 180) * Real.cos (Real.pi * t / 180)] := by
  norm_num [sphereToCart]

/-- C3: every vector produced by `sphereToCart` is a unit vector:
the sum of the squares of its components is 1. -/
theorem sphereToCart_unit_norm (t p : ℝ) :
    ((sphereToCart t p).map (fun a => a ^ 2)).sum = 1 := by
  simp only [sphereToCart, List.map_cons, List.map_nil, List.sum_cons,
    List.sum_nil, add_zero]
  nlinarith [Real.sin_sq_add_cos_sq (Real.pi * p / 180.0),
    Real.sin_sq_add_cos_sq (Real.pi * t / 180.0)]

/-- C4: `iso v` sets the contour filter's `Isosurfaces` to `[v]` and emits
exactly one pipeline update, on the contour filter; every other property
of the contour filter, every other pipeline object, and the render view
are unchanged (and the Python function returns `None`: its whole result
is the state and the emitted commands). -/
theorem iso_frame_effect (v : ℚ) (s : PVState) :
    (iso v s).1.contour.Isosurfaces = [v] ∧
    (iso v s).2 = [PVCall.updatePipeline ObjId.contour] ∧
    (iso v s).1.contour.ContourBy = s.contour.ContourBy ∧
    (iso v s).1.transform = s.transform ∧
    (iso v s).1.renV = s.renV ∧
    (iso v s).1.lights = s.lights :=
  ⟨rfl, rfl, rfl, rfl, rfl, rfl⟩

/-- C10: running `iso v` twice in succession leaves the configuration in
exactly the state reached after running it once, and the second call emits
the same single pipeline-update command. -/
theorem iso_idempotent (v : ℚ) (s : PVState) :
    (iso v (iso v s).1).1 = (iso v s).1 ∧ (iso v (iso v s).1).2 = (iso v s).2 :=
  ⟨rfl, rfl⟩

/-- C6: each of the three `Isosurfaces` assignments in the notebooks — the
first notebook's setup cell, the `iso` callback, and the second notebook's
wavelet contour — assigns a one-element list holding a single threshold. -/
theorem isosurfaces_always_singleton :
    initialContour.Isosurfaces = [(1627 : ℚ)] ∧
    initialContour.Isosurfaces.length = 1 ∧
    (∀ (v : ℚ) (s : PVState), (iso v s).1.contour.Isosurfaces = [v] ∧
      ((iso v s).1.contour.Isosurfaces).length = 1) ∧
    waveletContour.Isosurfaces = [(157 : ℚ)] ∧
    waveletContour.Isosurfaces.length = 1 :=
  ⟨rfl, rfl, fun _ _ => ⟨rfl, rfl⟩, rfl, rfl⟩

/-- C7: the `vtkImageData` configuration is internally consistent: for each
axis, the extent is `[0, voldims[i]-1]` (so the sample count along each
axis equals the declared dimension), the spacing is `1/voldims[i]`, and
the origin is `[-0.5, -0.5, -0.5]`. -/
theorem vtkimg_consistent :
    vtkimg.Dimensions = voldims ∧
    (∀ i : Fin 3, vtkimg.Extent[2 * i.val]! = 0 ∧
      vtkimg.Extent[2 * i.val + 1]! = voldims[i.val]! - 1 ∧
      vtkimg.Extent[2 * i.val + 1]! - vtkimg.Extent[2 * i.val]! + 1 = voldims[i.val]! ∧
      vtkimg.Spacing[i.val]! = 1 / (voldims[i.val]! : ℚ)) ∧
    vtkimg.Origin = [-(1/2 : ℚ), -(1/2 : ℚ), -(1/2 : ℚ)] := by
  refine ⟨rfl, ?_, rfl⟩
  intro i
  fin_cases i <;> refine ⟨?_, ?_, ?_, ?_⟩ <;> norm_num [vtkimg, voldims]

/-! ## Light callback lemmas (C5) -/

/-- The three assignments the light callbacks perform, as one update. -/
def setLightProps (P : List ℝ) (rgb : List ℚ) (lum : ℚ) (l : Light) : Light :=
  { l with Position := P, DiffuseColor := rgb, Intensity := lum }

theorem assignLight_assignLight (li : LightId) (f g : Light → Light)
    (s : PVState) :
    assignLight li f (assignLight li g s) = assignLight li (fun l => f (g l)) s := by
  unfold assignLight
  congr 1
  funext lj
  by_cases hlj : lj = li
  · simp [hlj]
  · simp [hlj]

theorem assignLight_self (li : LightId) (f : Light → Light) (s : PVState) :
    (assignLight li f s).lights li = f (s.lights li) := by
  simp [assignLight]

theorem assignLight_other (li lj : LightId) (f : Light → Light) (s : PVState)
    (h : lj ≠ li) : (assignLight li f s).lights lj = s.lights lj := by
  simp [assignLight, h]

/-- C5 counterexample: the claim quantifies over every argument tuple, but
for a colour string that is not a hex code (`"zz"`), `hexToRGB` raises
`ValueError` inside `setDirLight`, so the call aborts after assigning only
`Position`: `DiffuseColor` keeps its old value and `Intensity` is never
set to `lum = 5`. -/
theorem setDirLight_valueError_cex :
    setDirLight LightId.light1 0 0 "zz" 5 baseState =
      Except.error (assignLight LightId.light1
        (fun l => { l with Position := sphereToCart 0 0 }) baseState) ∧
    ((assignLight LightId.light1
        (fun l => { l with Position := sphereToCart 0 0 }) baseState).lights
        LightId.light1).Intensity ≠ 5 ∧
    ((assignLight LightId.light1
        (fun l => { l with Position := sphereToCart 0 0 }) baseState).lights
        LightId.light1).DiffuseColor = baseLight.DiffuseColor := by
  have hz : hexToRGB "zz" = none := by
    rw [hexToRGB, show hexToRGBraw "zz" = none from by decide]
    rfl
  refine ⟨?_, ?_, ?_⟩
  · simp only [setDirLight, hz]
  · rw [assignLight_self]
    show (1 : ℚ) ≠ 5
    norm_num
  · rw [assignLight_self]
    rfl

/-- C5 (amended: the colour argument must parse, `hexToRGB col = some rgb`;
the notebook always passes `'#rrggbb'` strings from colour-picker widgets):
`setDirLight` and `setPtLight` assign exactly `Position` (to
`sphereToCart theta phi`, resp. `[x, y, z]`), `DiffuseColor` (to
`hexToRGB col`) and `Intensity` (to `lum`) of the passed light, and leave
the light's other properties, the other lights, and all other render
state unchanged. -/
theorem setLight_assign_exactly (li : LightId) (theta phi x y z : ℝ)
    (col : String) (lum : ℚ) (rgb : List ℚ) (s : PVState)
    (hcol : hexToRGB col = some rgb) :
    setDirLight li theta phi col lum s =
      Except.ok (assignLight li (setLightProps (sphereToCart theta phi) rgb lum) s) ∧
    setPtLight li x y z col lum s =
      Except.ok (assignLight li (setLightProps [x, y, z] rgb lum) s) ∧
    ((assignLight li (setLightProps (sphereToCart theta phi) rgb lum) s).lights li).Position =
      sphereToCart theta phi ∧
    ((assignLight li (setLightProps [x, y, z] rgb lum) s).lights li).Position = [x, y, z] ∧
    (∀ P : List ℝ,
      ((assignLight li (setLightProps P rgb lum) s).lights li).DiffuseColor = rgb ∧
      ((assignLight li (setLightProps P rgb lum) s).lights li).Intensity = lum ∧
      ((assignLight li (setLightProps P rgb lum) s).lights li).lightType =
        (s.lights li).lightType ∧
      ((assignLight li (setLightProps P rgb lum) s).lights li).Enable =
        (s.lights li).Enable ∧
      ((assignLight li (setLightProps P rgb lum) s).lights li).ConeAngle =
        (s.lights li).ConeAngle ∧
      (∀ lj, lj ≠ li → (assignLight li (setLightProps P rgb lum) s).lights lj =
        s.lights lj) ∧
      (assignLight li (setLightProps P rgb lum) s).contour = s.contour ∧
      (assignLight li (setLightProps P rgb lum) s).transform = s.transform ∧
      (assignLight li (setLightProps P rgb lum) s).renV = s.renV) := by
  refine ⟨?_, ?_, ?_, ?_, ?_⟩
  · unfold setDirLight
    rw [hcol]
    dsimp only
    rw [assignLight_assignLight, assignLight_assignLight]
    rfl
  · unfold setPtLight
    rw [hcol]
    dsimp only
    rw [assignLight_assignLight, assignLight_assignLight]
    rfl
  · rw [assignLight_self]
    rfl
  · rw [assignLight_self]
    rfl
  · intro P
    refine ⟨?_, ?_, ?_, ?_, ?_, ?_, rfl, rfl, rfl⟩
    · rw [assignLight_self]
      rfl
    · rw [assignLight_self]
      rfl
    · rw [assignLight_self]
      rfl
    · rw [assignLight_self]
      rfl
    · rw [assignLight_self]
      rfl
    · intro lj hlj
      exact assignLight_other li lj _ s hlj

/-- Witness for the amended C5 at the notebook's final cell call
`setDirLight(light3, 43.6, 26.9, '#ffffff', 10.0)`. -/
theorem setLight_assign_exactly_witness :
    hexToRGB "#ffffff" = some [1, 1, 1] ∧
    setDirLight LightId.light3 43.6 26.9 "#ffffff" 10 baseState =
      Except.ok (assignLight LightId.light3
        (setLightProps (sphereToCart 43.6 26.9) [1, 1, 1] 10) baseState) := by
  have hw : hexToRGB "#ffffff" = some [1, 1, 1] := by
    rw [hexToRGB, show hexToRGBraw "#ffffff" = some (255, 255, 255) from by decide]
    norm_num
  exact ⟨hw, (setLight_assign_exactly LightId.light3 43.6 26.9 0.1 (-0.33) 0.5
    "#ffffff" 10 [1, 1, 1] baseState hw).1⟩
